import Mathlib

/-!
Shallow embedding of `custom_components/platerecognizer/image_processing.py`
(a Home Assistant image-processing platform that sends camera snapshots to the
Plate Recognizer cloud API).

External collaborators (the `requests` HTTP library, `dt_util.now()`, PIL image
decoding and the host event bus) are modelled as explicit inputs and effect
records: each fallible external call is an input describing its outcome, each
side effect (events fired, files written, log lines) is collected in the output.
Python dicts with string keys are association lists in insertion order, JSON
numbers are rationals (they are only copied, never computed with).
-/

/-- A value stored in a vehicle record or an event payload: a JSON string or a
JSON number (the `score` field). -/
inductive AttrVal where
  | s : String → AttrVal
  | n : Rat → AttrVal
deriving DecidableEq

/-- A Python dict with string keys, as an association list in insertion order. -/
abbrev VehicleDict := List (String × AttrVal)

/-- Python `d[k]`-style lookup, as an `Option` (a missing key raises `KeyError`). -/
def dictGet (d : VehicleDict) (k : String) : Option AttrVal :=
  (d.find? (fun p => p.1 == k)).map (fun p => p.2)

/-- Python `d.update({k: v})`: overwrite the value when the key is present,
append the new pair otherwise. -/
def dictUpdate (d : VehicleDict) (k : String) (v : AttrVal) : VehicleDict :=
  if d.any (fun p => p.1 == k) then
    d.map (fun p => if p.1 == k then (k, v) else p)
  else d ++ [(k, v)]

/-- Module constant `EVENT_VEHICLE_DETECTED`. -/
def EVENT_VEHICLE_DETECTED : String := "platerecognizer.vehicle_detected"

/-- Module constant `ATTR_PLATE`. -/
def ATTR_PLATE : String := "plate"

/-- Module constant `ATTR_CONFIDENCE`. -/
def ATTR_CONFIDENCE : String := "confidence"

/-- Module constant `ATTR_REGION_CODE`. -/
def ATTR_REGION_CODE : String := "region_code"

/-- Module constant `ATTR_VEHICLE_TYPE`. -/
def ATTR_VEHICLE_TYPE : String := "vehicle_type"

/-- Home Assistant constant `ATTR_ENTITY_ID` (imported by the source from
`homeassistant.const`). -/
def ATTR_ENTITY_ID : String := "entity_id"

/-- Module constant `DATETIME_FORMAT`, the strftime format string. -/
def DATETIME_FORMAT : String := "%Y-%m-%d_%H-%M-%S"

/-- One entry of the recognition response's `results` list, restricted to the
keys the integration reads.  A `none` field models a missing key (or missing
nested `region`/`vehicle` dict): looking it up raises `KeyError` inside the
list comprehension. -/
structure RawEntry where
  plate : Option String
  score : Option Rat
  region_code : Option String
  vehicle_type : Option String
deriving DecidableEq

/-- The dict built for one result entry by the comprehension in
`process_image`; `none` when any of the four key lookups raises. -/
def vehicleOfResult (r : RawEntry) : Option VehicleDict :=
  match r.plate, r.score, r.region_code, r.vehicle_type with
  | some p, some sc, some rc, some vt =>
      some [(ATTR_PLATE, AttrVal.s p), (ATTR_CONFIDENCE, AttrVal.n sc),
            (ATTR_REGION_CODE, AttrVal.s rc), (ATTR_VEHICLE_TYPE, AttrVal.s vt)]
  | _, _, _, _ => none

/-- The whole list comprehension
`[{...} for r in self._results]`: `none` when any entry raises. -/
def vehiclesOfResults : List RawEntry → Option (List VehicleDict)
  | [] => some []
  | r :: rs =>
    match vehicleOfResult r, vehiclesOfResults rs with
    | some v, some vs => some (v :: vs)
    | _, _ => none

/-- A local wall-clock value as returned by `dt_util.now()`. -/
structure DateTimeVal where
  year : Nat
  month : Nat
  day : Nat
  hour : Nat
  minute : Nat
  second : Nat
deriving DecidableEq

/-- strftime `%m`/`%d`/`%H`/`%M`/`%S`: decimal, zero-padded to two digits. -/
def pad2 (n : Nat) : String := if n < 10 then "0" ++ toString n else toString n

/-- strftime `%Y`: decimal, zero-padded to four digits (years beyond 9999 keep
all their digits). -/
def pad4 (n : Nat) : String :=
  if n < 10000 then pad2 (n / 100) ++ pad2 (n % 100) else toString n

/-- Modelled from the spec: `dt_util.now().strftime(DATETIME_FORMAT)`, i.e. the
format `YYYY-MM-DD_HH-MM-SS` applied to the current local time (strftime itself
is host-library code, not part of this repository). -/
def strftimeDF (d : DateTimeVal) : String :=
  pad4 d.year ++ "-" ++ pad2 d.month ++ "-" ++ pad2 d.day ++ "_" ++
    pad2 d.hour ++ "-" ++ pad2 d.minute ++ "-" ++ pad2 d.second

/-- Whether a string has the shape `YYYY-MM-DD_HH-MM-SS` (four digits, dash,
two digits, dash, two digits, underscore, two digits, dash, two digits, dash,
two digits). -/
def isDateTimeFormat (str : String) : Bool :=
  match str.data with
  | [y1, y2, y3, y4, c1, mo1, mo2, c2, d1, d2, c3, h1, h2, c4, mi1, mi2, c5, se1, se2] =>
      y1.isDigit && y2.isDigit && y3.isDigit && y4.isDigit &&
      (c1 == '-') && mo1.isDigit && mo2.isDigit && (c2 == '-') &&
      d1.isDigit && d2.isDigit && (c3 == '_') &&
      h1.isDigit && h2.isDigit && (c4 == '-') &&
      mi1.isDigit && mi2.isDigit && (c5 == '-') &&
      se1.isDigit && se2.isDigit
  | _ => false

/-- The statistics endpoint's JSON response, restricted to the keys the code
reads plus the remaining plan fields it stores verbatim. -/
structure StatsResponse where
  total_calls : Int
  usage_calls : Int
  plan_fields : List (String × Int)
deriving DecidableEq

/-- What `get_statistics` stores on success: the full response plus the derived
`calls_remaining` entry added by `response.update`. -/
structure StoredStats where
  response : StatsResponse
  calls_remaining : Int
deriving DecidableEq

/-- Outcome of the statistics GET: `fail` covers a raised request, a JSON parse
error and a `KeyError` on `total_calls`/`usage`/`calls` (all caught by the one
`except` clause). -/
inductive StatsOutcome where
  | fail : StatsOutcome
  | ok : StatsResponse → StatsOutcome
deriving DecidableEq

/-- Outcome of the recognition POST up to `".json()[results]"`: `netFail`
covers a raised request, a JSON parse error and a missing `results` key;
`ok rs` means `self._results` is assigned the list `rs`. -/
inductive PostResult where
  | netFail : PostResult
  | ok : List RawEntry → PostResult
deriving DecidableEq

/-- `PlateRecognizerEntity.get_statistics`, as a transformer of the stored
statistics snapshot (`none` models the initial empty dict): on failure the old
snapshot is kept, on success the response plus `calls_remaining` replaces it. -/
def get_statistics (outcome : StatsOutcome) (old : Option StoredStats) :
    Option StoredStats :=
  match outcome with
  | .fail => old
  | .ok r => some { response := r, calls_remaining := r.total_calls - r.usage_calls }

/-- Split a character list at the first dot, when there is one. -/
def splitFirstDot : List Char → Option (List Char × List Char)
  | [] => none
  | c :: cs =>
    if c = '.' then some ([], cs)
    else
      match splitFirstDot cs with
      | none => none
      | some (a, b) => some (c :: a, b)

/-- Modelled from the spec: the host framework's `homeassistant.core.split_entity_id`,
Python `entity_id.split(".", 1)` — at most one split, at the first dot. -/
def split_entity_id (eid : String) : List String :=
  match splitFirstDot eid.data with
  | none => [eid]
  | some (a, b) => [String.mk a, String.mk b]

/-- Python truthiness of an optional string: `None` and `""` are falsy. -/
def pyTruthyStr : Option String → Bool
  | none => false
  | some str => !(str == "")

/-- Python `str(x)` on an optional string: `None` prints as the literal text
`None` (as happens in the timestamped-save f-string). -/
def pyStr : Option String → String
  | none => "None"
  | some str => str

/-- The mutable state of a `PlateRecognizerEntity` instance, together with its
configuration.  `entity_id` is the identifier the host framework assigns to the
entity (read by `fire_vehicle_detected_event`).  `results` holds
`self._results` (reset to an empty container each cycle); `statistics = none`
models the initial empty dict. -/
structure PlateRecognizerEntity where
  headers_authorization : String
  camera : String
  name : String
  save_file_folder : Option String
  save_timestamped_file : Bool
  always_save_latest_jpg : Bool
  state : Option Nat
  results : List RawEntry
  vehicles : List VehicleDict
  statistics : Option StoredStats
  last_detection : Option String
  entity_id : String
deriving DecidableEq

/-- `PlateRecognizerEntity.__init__`: store the auth header, camera and flags,
pick the name (the given one when truthy, else the platform name joined to the
camera's object id), start from `state = None`, empty results and statistics,
`[{}]` as the vehicles list, and run `get_statistics` once. -/
def PlateRecognizerEntity.init (api_token : String) (save_file_folder : Option String)
    (save_timestamped_file : Bool) (always_save_latest_jpg : Bool)
    (camera_entity : String) (name : Option String) (entity_id : String)
    (stats_outcome : StatsOutcome) : PlateRecognizerEntity :=
  { headers_authorization := "Token " ++ api_token,
    camera := camera_entity,
    name := if pyTruthyStr name then name.getD ""
            else "platerecognizer_" ++ ((split_entity_id camera_entity).getD 1 ""),
    save_file_folder := save_file_folder,
    save_timestamped_file := save_timestamped_file,
    always_save_latest_jpg := always_save_latest_jpg,
    state := none,
    results := [],
    vehicles := [[]],
    statistics := get_statistics stats_outcome none,
    last_detection := none,
    entity_id := entity_id }

/-- An event fired on the host bus. -/
structure Event where
  name : String
  payload : VehicleDict
deriving DecidableEq

/-- `PlateRecognizerEntity.fire_vehicle_detected_event`: copy the vehicle dict,
add the entity id to the copy, fire it.  The returned event holds the copy; the
argument dict is untouched. -/
def fire_vehicle_detected_event (eid : String) (vehicle : VehicleDict) : Event :=
  { name := EVENT_VEHICLE_DETECTED,
    payload := dictUpdate vehicle ATTR_ENTITY_ID (AttrVal.s eid) }

/-- The observable effects of one `save_image` call: whether the bad-data
warning was logged, the file paths written in order, and info log lines. -/
structure SaveEffect where
  warned : Bool
  writes : List String
  infoLogs : List String
deriving DecidableEq

/-- `PlateRecognizerEntity.save_image`.  `decodeOk` is whether
`Image.open(...).convert("RGB")` succeeds on the bytes (failure raises
`UnidentifiedImageError`, caught and logged).  The per-vehicle drawing loop in
the source has an empty body and no effect.  Paths mirror
`self._save_file_folder / f"..."`. -/
def save_image (folder nm : String) (timestamped : Bool) (ld : Option String)
    (decodeOk : Bool) : SaveEffect :=
  if decodeOk then
    let latest_save_path := folder ++ "/" ++ nm ++ "_latest.png"
    if timestamped then
      let timestamp_save_path := folder ++ "/" ++ nm ++ "_" ++ pyStr ld ++ ".png"
      { warned := false,
        writes := [latest_save_path, timestamp_save_path],
        infoLogs := ["platerecognizer saved file " ++ timestamp_save_path] }
    else
      { warned := false, writes := [latest_save_path], infoLogs := [] }
  else
    { warned := true, writes := [], infoLogs := [] }

/-- The external-world inputs consumed by one `process_image` call: the POST
outcome, whether the image bytes decode (only consulted when saving), the
statistics GET outcome and the current local time. -/
structure ProcessInput where
  post : PostResult
  decodeOk : Bool
  stats : StatsOutcome
  now : DateTimeVal
deriving DecidableEq

/-- The result of one `process_image` call: the updated entity plus every
observable effect. -/
structure ProcessResult where
  entity : PlateRecognizerEntity
  events : List Event
  saveCalled : Bool
  saveEffect : Option SaveEffect
  errorLogs : List String
deriving DecidableEq

/-- `PlateRecognizerEntity.process_image`, line by line: reset `_results` to an
empty container and `_vehicles` to `[{}]`; run the POST and the comprehension
inside `try` (an exception anywhere leaves the reset values, except that
`_results` keeps the list when only the comprehension raises); set
`_state = len(_vehicles)`; when positive, stamp `_last_detection` and fire one
event per vehicle; save when a folder is configured and (positive state or
always-save); finally refresh statistics. -/
def PlateRecognizerEntity.process_image (e : PlateRecognizerEntity)
    (inp : ProcessInput) : ProcessResult :=
  let step :=
    match inp.post with
    | .netFail => (([] : List RawEntry), ([[]] : List VehicleDict),
                   ["platerecognizer error processing image"])
    | .ok rs =>
      match vehiclesOfResults rs with
      | some vs => (rs, vs, ([] : List String))
      | none => (rs, ([[]] : List VehicleDict),
                 ["platerecognizer error processing image"])
  let vehicles1 := step.2.1
  let st := vehicles1.length
  let newLd := if 0 < st then some (strftimeDF inp.now) else e.last_detection
  let events :=
    if 0 < st then vehicles1.map (fun v => fire_vehicle_detected_event e.entity_id v)
    else []
  let saveInfo :=
    match e.save_file_folder with
    | some folder =>
      if 0 < st ∨ e.always_save_latest_jpg then
        (true, some (save_image folder e.name e.save_timestamped_file newLd inp.decodeOk))
      else (false, (none : Option SaveEffect))
    | none => (false, none)
  { entity := { e with results := step.1, vehicles := vehicles1, state := some st,
                       last_detection := newLd,
                       statistics := get_statistics inp.stats e.statistics },
    events := events,
    saveCalled := saveInfo.1,
    saveEffect := saveInfo.2,
    errorLogs := step.2.2 }

/-- The attributes map exposed by the `device_state_attributes` property; the
three save-related keys are present only when a save folder is configured. -/
structure StateAttributes where
  last_detection : Option String
  vehicles : List VehicleDict
  statistics : Option StoredStats
  save_file_folder : Option String
  save_timestamped_file : Option Bool
  always_save_latest_jpg : Option Bool
deriving DecidableEq

/-- `PlateRecognizerEntity.device_state_attributes`. -/
def PlateRecognizerEntity.device_state_attributes (e : PlateRecognizerEntity) :
    StateAttributes :=
  { last_detection := e.last_detection,
    vehicles := e.vehicles,
    statistics := e.statistics,
    save_file_folder := e.save_file_folder,
    save_timestamped_file :=
      if e.save_file_folder.isSome then some e.save_timestamped_file else none,
    always_save_latest_jpg :=
      if e.save_file_folder.isSome then some e.always_save_latest_jpg else none }

/-- A concrete entity used to evaluate the theorems on explicit inputs. -/
def sampleEntity : PlateRecognizerEntity :=
  { headers_authorization := "Token tok",
    camera := "camera.front",
    name := "platerecognizer_front",
    save_file_folder := some "/tmp/plates",
    save_timestamped_file := true,
    always_save_latest_jpg := true,
    state := none,
    results := [],
    vehicles := [[]],
    statistics := none,
    last_detection := some "2020-01-01_00-00-00",
    entity_id := "image_processing.platerecognizer_front" }

/-- The same entity before any detection has ever occurred. -/
def freshEntity : PlateRecognizerEntity := { sampleEntity with last_detection := none }

/-- A concrete wall-clock instant. -/
def sampleNow : DateTimeVal := ⟨2026, 10, 12, 9, 5, 3⟩

/-- A well-formed result entry. -/
def sampleEntry : RawEntry := ⟨some "abc123", some (9/10 : Rat), some "us-ca", some "Sedan"⟩

/-- Inputs for a run whose POST succeeds with one result entry. -/
def sampleOkInput : ProcessInput :=
  ⟨PostResult.ok [sampleEntry], true, StatsOutcome.fail, sampleNow⟩

/-- Inputs for a run whose POST succeeds with an empty results list. -/
def sampleEmptyInput : ProcessInput :=
  ⟨PostResult.ok [], true, StatsOutcome.fail, sampleNow⟩

/-- Inputs for a run whose POST (or its JSON parsing) raises. -/
def sampleFailInput : ProcessInput :=
  ⟨PostResult.netFail, true, StatsOutcome.fail, sampleNow⟩

/-- C1: the claim says a failed POST/parse leaves state 0, an empty vehicle
list and the previous last_detection.  The code instead reset the vehicle list
to `[{}]` — a one-element list — so after the exception `len(self._vehicles)`
is 1: the state becomes 1, last_detection is overwritten with the current
time, and one phantom `vehicle_detected` event (carrying only the entity id)
is fired.  This theorem evaluates `process_image` at such a failing run and
records that behaviour; only the no-exception-propagates part of the claim
holds (the embedding is a total function because the source catches every
exception). -/
theorem process_image_failure_reports_phantom_vehicle :
    (sampleEntity.process_image sampleFailInput).entity.state = some 1 ∧
    (sampleEntity.process_image sampleFailInput).entity.vehicles = [[]] ∧
    sampleEntity.last_detection = some "2020-01-01_00-00-00" ∧
    (sampleEntity.process_image sampleFailInput).entity.last_detection =
      some "2026-10-12_09-05-03" ∧
    (sampleEntity.process_image sampleFailInput).events =
      [{ name := "platerecognizer.vehicle_detected",
         payload := [("entity_id", AttrVal.s "image_processing.platerecognizer_front")] }] ∧
    (sampleEntity.process_image sampleFailInput).errorLogs =
      ["platerecognizer error processing image"] := by
  decide

/-- C3: a failed statistics GET (request error, JSON error or missing key)
leaves the stored snapshot unchanged; a successful one replaces it entirely by
the response plus `calls_remaining = total_calls - usage.calls`; and every
`process_image` run updates the entity's statistics exactly through
`get_statistics`. -/
theorem get_statistics_failure_keeps_success_replaces :
    (∀ old : Option StoredStats, get_statistics StatsOutcome.fail old = old) ∧
    (∀ (old : Option StoredStats) (r : StatsResponse),
      get_statistics (StatsOutcome.ok r) old =
        some { response := r, calls_remaining := r.total_calls - r.usage_calls }) ∧
    (∀ (e : PlateRecognizerEntity) (inp : ProcessInput),
      (e.process_image inp).entity.statistics = get_statistics inp.stats e.statistics) :=
  ⟨fun _ => rfl, fun _ _ => rfl, fun _ _ => rfl⟩

/-- C4: the save step runs exactly when a save folder is configured and
(the resulting state is positive or the always-save flag is set); the
`isSome` conjunct makes the no-folder case a skip even when always-save is
true, and the second equation ties the resulting state to the vehicle count. -/
theorem process_image_save_condition (e : PlateRecognizerEntity) (inp : ProcessInput) :
    ((e.process_image inp).saveCalled =
      (e.save_file_folder.isSome &&
        (decide (0 < (e.process_image inp).entity.vehicles.length) ||
          e.always_save_latest_jpg))) ∧
    (e.process_image inp).entity.state =
      some ((e.process_image inp).entity.vehicles.length) := by
  constructor
  · rcases hpost : inp.post with _ | rs
    · cases hf : e.save_file_folder <;>
        simp [PlateRecognizerEntity.process_image, hpost, hf]
    · rcases hmap : vehiclesOfResults rs with _ | vs
      · cases hf : e.save_file_folder <;>
          simp [PlateRecognizerEntity.process_image, hpost, hmap, hf]
      · cases hf : e.save_file_folder <;>
          simp [PlateRecognizerEntity.process_image, hpost, hmap, hf]
        by_cases h0 : 0 < vs.length <;>
          by_cases ha : e.always_save_latest_jpg <;>
            simp [h0, ha]
  · rfl

/-- C5: a successful response with an empty results list yields state 0, an
empty vehicle list, no events, and an unchanged last_detection. -/
theorem process_image_zero_results (e : PlateRecognizerEntity) (inp : ProcessInput)
    (hpost : inp.post = PostResult.ok []) :
    (e.process_image inp).entity.state = some 0 ∧
    (e.process_image inp).entity.vehicles = [] ∧
    (e.process_image inp).events = [] ∧
    (e.process_image inp).entity.last_detection = e.last_detection := by
  simp [PlateRecognizerEntity.process_image, hpost, vehiclesOfResults]

/-- C5 witness: the zero-result theorem evaluated on a concrete entity whose
previous last_detection is preserved. -/
theorem process_image_zero_results_witness :
    (sampleEntity.process_image sampleEmptyInput).entity.state = some 0 ∧
    (sampleEntity.process_image sampleEmptyInput).events = [] ∧
    (sampleEntity.process_image sampleEmptyInput).entity.last_detection =
      some "2020-01-01_00-00-00" :=
  ⟨(process_image_zero_results sampleEntity sampleEmptyInput rfl).1,
   (process_image_zero_results sampleEntity sampleEmptyInput rfl).2.2.1,
   (process_image_zero_results sampleEntity sampleEmptyInput rfl).2.2.2⟩

/-- C6: undecodable image bytes make `save_image` log the bad-data warning and
return without writing any file (and without raising: the embedding is total
because the source catches `UnidentifiedImageError`). -/
theorem save_image_bad_data_warns_writes_nothing (folder nm : String)
    (timestamped : Bool) (ld : Option String) :
    save_image folder nm timestamped ld false =
      { warned := true, writes := [], infoLogs := [] } :=
  rfl

/-- C7 counterexample: when the always-save flag triggers a timestamped save
before any detection ever occurred, `self._last_detection` is `None`, so the
second file written is `<name>_None.png` — its suffix is the literal text
`None`, not a `YYYY-MM-DD_HH-MM-SS` timestamp, refuting the claim's format
clause for this call. -/
theorem save_image_timestamped_claim_cex :
    (save_image "/tmp/plates" "platerecognizer_front" true none true).writes =
      ["/tmp/plates/platerecognizer_front_latest.png",
       "/tmp/plates/platerecognizer_front_None.png"] ∧
    isDateTimeFormat "None" = false := by
  decide

/-- C8 counterexample: the constructor sets `self._vehicles = [{}]`, a
one-element list holding an empty dict, not an empty list; and a given-but-empty
name is falsy in Python, so the code falls back to the default name instead of
storing the given name. -/
theorem init_claim_cex :
    (PlateRecognizerEntity.init "tok" none false false "camera.front_door" none
        "image_processing.platerecognizer_front_door" StatsOutcome.fail).vehicles = [[]] ∧
    ([[]] : List VehicleDict) ≠ [] ∧
    (PlateRecognizerEntity.init "tok" none false false "camera.front_door" (some "")
        "image_processing.platerecognizer_front_door" StatsOutcome.fail).name =
      "platerecognizer_front_door" := by
  decide

/-- The comprehension keeps the length of the results list. -/
lemma vehiclesOfResults_length :
    ∀ (rs : List RawEntry) (vs : List VehicleDict),
      vehiclesOfResults rs = some vs → vs.length = rs.length := by
  intro rs
  induction rs with
  | nil =>
    intro vs h
    simp [vehiclesOfResults] at h
    simp [← h]
  | cons r rt ih =>
    intro vs h
    unfold vehiclesOfResults at h
    cases hv : vehicleOfResult r with
    | none => rw [hv] at h; simp at h
    | some v =>
      cases hrest : vehiclesOfResults rt with
      | none => rw [hv, hrest] at h; simp at h
      | some vt =>
        rw [hv, hrest] at h
        simp at h
        rw [← h]
        simp [ih vt hrest]

/-- Entry-wise description of the comprehension's output. -/
lemma vehiclesOfResults_get :
    ∀ (rs : List RawEntry) (vs : List VehicleDict),
      vehiclesOfResults rs = some vs →
      ∀ (i : Nat) (h1 : i < rs.length) (h2 : i < vs.length),
        vehicleOfResult (rs.get ⟨i, h1⟩) = some (vs.get ⟨i, h2⟩) := by
  intro rs
  induction rs with
  | nil =>
    intro vs h i h1 h2
    simp at h1
  | cons r rt ih =>
    intro vs h i h1 h2
    unfold vehiclesOfResults at h
    cases hv : vehicleOfResult r with
    | none => rw [hv] at h; simp at h
    | some v =>
      cases hrest : vehiclesOfResults rt with
      | none => rw [hv, hrest] at h; simp at h
      | some vt =>
        rw [hv, hrest] at h
        simp at h
        subst h
        cases i with
        | zero => simpa using hv
        | succ j =>
          have hj1 : j < rt.length := by simpa using h1
          have hj2 : j < vt.length := by simpa using h2
          simpa using ih vt hrest j hj1 hj2

/-- Every dict produced by the comprehension comes from some result entry. -/
lemma vehiclesOfResults_mem :
    ∀ (rs : List RawEntry) (vs : List VehicleDict),
      vehiclesOfResults rs = some vs →
      ∀ v ∈ vs, ∃ r, r ∈ rs ∧ vehicleOfResult r = some v := by
  intro rs
  induction rs with
  | nil =>
    intro vs h v hv
    simp [vehiclesOfResults] at h
    subst h
    simp at hv
  | cons r rt ih =>
    intro vs h v hv
    unfold vehiclesOfResults at h
    cases hv1 : vehicleOfResult r with
    | none => rw [hv1] at h; simp at h
    | some v1 =>
      cases hrest : vehiclesOfResults rt with
      | none => rw [hv1, hrest] at h; simp at h
      | some vt =>
        rw [hv1, hrest] at h
        simp at h
        subst h
        rcases List.mem_cons.mp hv with hv' | hv'
        · exact ⟨r, List.mem_cons_self r rt, by rw [hv1, hv']⟩
        · obtain ⟨r', hr', hvr'⟩ := ih vt hrest v hv'
          exact ⟨r', List.mem_cons_of_mem r hr', hvr'⟩

/-- The explicit shape of a dict built by the comprehension. -/
lemma vehicleOfResult_eq_some (r : RawEntry) (v : VehicleDict)
    (h : vehicleOfResult r = some v) :
    ∃ p sc rc vt, r.plate = some p ∧ r.score = some sc ∧ r.region_code = some rc ∧
      r.vehicle_type = some vt ∧
      v = [(ATTR_PLATE, AttrVal.s p), (ATTR_CONFIDENCE, AttrVal.n sc),
           (ATTR_REGION_CODE, AttrVal.s rc), (ATTR_VEHICLE_TYPE, AttrVal.s vt)] := by
  cases hp : r.plate with
  | none => simp [vehicleOfResult, hp] at h
  | some p =>
    cases hsc : r.score with
    | none => simp [vehicleOfResult, hp, hsc] at h
    | some sc =>
      cases hrc : r.region_code with
      | none => simp [vehicleOfResult, hp, hsc, hrc] at h
      | some rc =>
        cases hvt : r.vehicle_type with
        | none => simp [vehicleOfResult, hp, hsc, hrc, hvt] at h
        | some vt =>
          simp [vehicleOfResult, hp, hsc, hrc, hvt] at h
          exact ⟨p, sc, rc, vt, rfl, rfl, rfl, rfl, h.symm⟩

/-- The events of a run whose POST and comprehension both succeed. -/
lemma process_image_events_ok (e : PlateRecognizerEntity) (inp : ProcessInput)
    (rs : List RawEntry) (vs : List VehicleDict)
    (hpost : inp.post = PostResult.ok rs)
    (hmap : vehiclesOfResults rs = some vs) :
    (e.process_image inp).events =
      if 0 < vs.length then
        vs.map (fun v => fire_vehicle_detected_event e.entity_id v)
      else [] := by
  simp [PlateRecognizerEntity.process_image, hpost, hmap]

/-- The state of a run whose POST and comprehension both succeed. -/
lemma process_image_state_ok (e : PlateRecognizerEntity) (inp : ProcessInput)
    (rs : List RawEntry) (vs : List VehicleDict)
    (hpost : inp.post = PostResult.ok rs)
    (hmap : vehiclesOfResults rs = some vs) :
    (e.process_image inp).entity.state = some vs.length := by
  simp [PlateRecognizerEntity.process_image, hpost, hmap]

/-- C2: on a successful, well-formed response with N result entries the state
becomes N and exactly N `vehicle_detected` events are fired, the i-th carrying
the i-th entry's plate, score (as confidence), region code and vehicle type,
plus the entity's own identifier. -/
theorem process_image_success_state_and_events (e : PlateRecognizerEntity)
    (inp : ProcessInput) (rs : List RawEntry) (vs : List VehicleDict)
    (hpost : inp.post = PostResult.ok rs)
    (hmap : vehiclesOfResults rs = some vs) :
    (e.process_image inp).entity.state = some rs.length ∧
    (e.process_image inp).events.length = rs.length ∧
    ∀ (i : Nat) (hi : i < rs.length),
      ∃ ev : Event, (e.process_image inp).events[i]? = some ev ∧
        ev.name = EVENT_VEHICLE_DETECTED ∧
        dictGet ev.payload ATTR_PLATE = (rs.get ⟨i, hi⟩).plate.map AttrVal.s ∧
        dictGet ev.payload ATTR_CONFIDENCE = (rs.get ⟨i, hi⟩).score.map AttrVal.n ∧
        dictGet ev.payload ATTR_REGION_CODE = (rs.get ⟨i, hi⟩).region_code.map AttrVal.s ∧
        dictGet ev.payload ATTR_VEHICLE_TYPE = (rs.get ⟨i, hi⟩).vehicle_type.map AttrVal.s ∧
        dictGet ev.payload ATTR_ENTITY_ID = some (AttrVal.s e.entity_id) := by
  have hlen := vehiclesOfResults_length rs vs hmap
  have hev := process_image_events_ok e inp rs vs hpost hmap
  have hst := process_image_state_ok e inp rs vs hpost hmap
  refine ⟨by rw [hst, hlen], ?_, ?_⟩
  · rw [hev]
    by_cases h0 : 0 < vs.length
    · rw [if_pos h0]
      simp [hlen]
    · have hz : vs.length = 0 := by omega
      rw [if_neg h0]
      simp [← hlen, hz]
  · intro i hi
    have hi' : i < vs.length := by omega
    have h0 : 0 < vs.length := by omega
    have hveh := vehiclesOfResults_get rs vs hmap i hi hi'
    obtain ⟨p, sc, rc, vt, hp, hsc, hrc, hvt, hv⟩ :=
      vehicleOfResult_eq_some _ _ hveh
    refine ⟨fire_vehicle_detected_event e.entity_id (vs.get ⟨i, hi'⟩), ?_, rfl,
      ?_, ?_, ?_, ?_, ?_⟩
    · rw [hev, if_pos h0]
      rw [List.getElem?_map]
      simp [List.getElem?_eq_getElem hi']
    · rw [hv, hp]; rfl
    · rw [hv, hsc]; rfl
    · rw [hv, hrc]; rfl
    · rw [hv, hvt]; rfl
    · rw [hv]; rfl

/-- C2 witness: one well-formed result entry yields state 1 and one event whose
payload carries the entry's fields and the entity id. -/
theorem process_image_success_state_and_events_witness :
    (sampleEntity.process_image sampleOkInput).entity.state = some 1 ∧
    (sampleEntity.process_image sampleOkInput).events.length = 1 := by
  have h := process_image_success_state_and_events sampleEntity sampleOkInput
    [sampleEntry]
    [[(ATTR_PLATE, AttrVal.s "abc123"), (ATTR_CONFIDENCE, AttrVal.n (9/10 : Rat)),
      (ATTR_REGION_CODE, AttrVal.s "us-ca"), (ATTR_VEHICLE_TYPE, AttrVal.s "Sedan")]]
    rfl rfl
  exact ⟨h.1, h.2.1⟩

/-- A key absent from a dict is found in the updated dict with the new value. -/
lemma dictGet_dictUpdate_of_none (d : VehicleDict) (k : String) (x : AttrVal)
    (h : dictGet d k = none) : dictGet (dictUpdate d k x) k = some x := by
  have hfind : d.find? (fun p => p.1 == k) = none := by
    unfold dictGet at h
    cases hf : d.find? (fun p => p.1 == k) with
    | none => rfl
    | some q => rw [hf] at h; simp at h
  have hany : d.any (fun p => p.1 == k) = false := by
    rw [List.any_eq_false]
    intro p hp
    have := List.find?_eq_none.mp hfind p hp
    simpa using this
  unfold dictUpdate
  rw [hany]
  simp only [Bool.false_eq_true, if_false]
  unfold dictGet
  rw [List.find?_append, hfind]
  simp

/-- C9: the vehicle dicts exposed through the entity's attributes never carry
an `entity_id` key — `fire_vehicle_detected_event` adds the identifier only to
a copy — while every fired event's payload does carry it. -/
theorem vehicles_attribute_never_has_entity_id (e : PlateRecognizerEntity)
    (inp : ProcessInput) :
    (∀ v ∈ ((e.process_image inp).entity.device_state_attributes).vehicles,
      dictGet v ATTR_ENTITY_ID = none) ∧
    (∀ ev ∈ (e.process_image inp).events,
      dictGet ev.payload ATTR_ENTITY_ID = some (AttrVal.s e.entity_id)) := by
  have hattr : ((e.process_image inp).entity.device_state_attributes).vehicles =
      (e.process_image inp).entity.vehicles := rfl
  have hnokey : ∀ v ∈ (e.process_image inp).entity.vehicles,
      dictGet v ATTR_ENTITY_ID = none := by
    rcases hpost : inp.post with _ | rs
    · intro v hv
      have : (e.process_image inp).entity.vehicles = [[]] := by
        simp [PlateRecognizerEntity.process_image, hpost]
      rw [this] at hv
      simp at hv
      subst hv
      rfl
    · rcases hmap : vehiclesOfResults rs with _ | vs
      · intro v hv
        have : (e.process_image inp).entity.vehicles = [[]] := by
          simp [PlateRecognizerEntity.process_image, hpost, hmap]
        rw [this] at hv
        simp at hv
        subst hv
        rfl
      · intro v hv
        have hvs : (e.process_image inp).entity.vehicles = vs := by
          simp [PlateRecognizerEntity.process_image, hpost, hmap]
        rw [hvs] at hv
        obtain ⟨r, hr, hvr⟩ := vehiclesOfResults_mem rs vs hmap v hv
        obtain ⟨p, sc, rc, vt, hp, hsc, hrc, hvt, hveq⟩ :=
          vehicleOfResult_eq_some r v hvr
        rw [hveq]
        rfl
  refine ⟨by rw [hattr]; exact hnokey, ?_⟩
  intro ev hev
  have hevents : (e.process_image inp).events =
      if 0 < (e.process_image inp).entity.vehicles.length then
        (e.process_image inp).entity.vehicles.map
          (fun v => fire_vehicle_detected_event e.entity_id v)
      else [] := by
    rcases hpost : inp.post with _ | rs
    · simp [PlateRecognizerEntity.process_image, hpost]
    · rcases hmap : vehiclesOfResults rs with _ | vs <;>
        simp [PlateRecognizerEntity.process_image, hpost, hmap]
  rw [hevents] at hev
  by_cases h0 : 0 < (e.process_image inp).entity.vehicles.length
  · rw [if_pos h0] at hev
    obtain ⟨v, hv, hfe⟩ := List.mem_map.mp hev
    rw [← hfe]
    exact dictGet_dictUpdate_of_none v ATTR_ENTITY_ID (AttrVal.s e.entity_id)
      (hnokey v hv)
  · rw [if_neg h0] at hev
    simp at hev

/-- C9 witness: on a concrete failure run the exposed vehicle record has no
`entity_id` key while the fired event's payload carries the entity id. -/
theorem vehicles_attribute_never_has_entity_id_witness :
    dictGet [] ATTR_ENTITY_ID = none ∧
    dictGet (fire_vehicle_detected_event sampleEntity.entity_id []).payload
      ATTR_ENTITY_ID = some (AttrVal.s sampleEntity.entity_id) :=
  ⟨(vehicles_attribute_never_has_entity_id sampleEntity sampleFailInput).1
      [] (by decide),
   (vehicles_attribute_never_has_entity_id sampleEntity sampleFailInput).2
      (fire_vehicle_detected_event sampleEntity.entity_id []) (by decide)⟩

/-- Two-character zero-padded fields consist of exactly two decimal digits. -/
lemma pad2_digits :
    ∀ n : Nat, n < 100 →
      ((pad2 n).data.length = 2 ∧ (pad2 n).data.all Char.isDigit = true) := by
  decide

/-- Destructured form of `pad2_digits`. -/
lemma pad2_two_digits (n : Nat) (h : n < 100) :
    ∃ a b, (pad2 n).data = [a, b] ∧ a.isDigit = true ∧ b.isDigit = true := by
  obtain ⟨hlen, hall⟩ := pad2_digits n h
  cases hd : (pad2 n).data with
  | nil => rw [hd] at hlen; simp at hlen
  | cons a t =>
    cases t with
    | nil => rw [hd] at hlen; simp at hlen
    | cons b t2 =>
      cases t2 with
      | nil =>
        rw [hd] at hall
        simp [List.all_cons] at hall
        exact ⟨a, b, rfl, hall.1, hall.2⟩
      | cons c t3 => rw [hd] at hlen; simp at hlen

/-- The timestamp string produced for `last_detection` always has the shape
`YYYY-MM-DD_HH-MM-SS`, for any wall clock with a four-digit year and
two-digit remaining fields. -/
lemma strftimeDF_format (d : DateTimeVal) (h1 : d.year < 10000) (h2 : d.month < 100)
    (h3 : d.day < 100) (h4 : d.hour < 100) (h5 : d.minute < 100)
    (h6 : d.second < 100) :
    isDateTimeFormat (strftimeDF d) = true := by
  obtain ⟨a1, a2, e1, f11, f12⟩ := pad2_two_digits (d.year / 100) (by omega)
  obtain ⟨a3, a4, e2, f21, f22⟩ := pad2_two_digits (d.year % 100) (Nat.mod_lt _ (by omega))
  obtain ⟨b1, b2, e3, f31, f32⟩ := pad2_two_digits d.month h2
  obtain ⟨c1, c2, e4, f41, f42⟩ := pad2_two_digits d.day h3
  obtain ⟨g1, g2, e5, f51, f52⟩ := pad2_two_digits d.hour h4
  obtain ⟨m1, m2, e6, f61, f62⟩ := pad2_two_digits d.minute h5
  obtain ⟨s1, s2, e7, f71, f72⟩ := pad2_two_digits d.second h6
  have hdash : ("-" : String).data = ['-'] := rfl
  have hund : ("_" : String).data = ['_'] := rfl
  have hdata : (strftimeDF d).data =
      [a1, a2, a3, a4, '-', b1, b2, '-', c1, c2, '_', g1, g2, '-', m1, m2, '-', s1, s2] := by
    simp [strftimeDF, pad4, h1, String.data_append, hdash, hund, e1, e2, e3, e4, e5, e6, e7]
  simp [isDateTimeFormat, hdata, f11, f12, f21, f22, f31, f32, f41, f42, f51, f52,
    f61, f62, f71, f72]

/-- C7 amended: a decodable save always writes `<save_dir>/<name>_latest.png`,
and exactly when timestamped-save is enabled it additionally writes
`<save_dir>/<name>_<s>.png` where `s` is the current last_detection printed by
Python `str` — a `YYYY-MM-DD_HH-MM-SS` timestamp whenever last_detection was
stamped by a detection (second conjunct), but the literal text `None` when no
detection has ever occurred. -/
theorem save_image_writes_latest_and_timestamped (folder nm : String)
    (ld : Option String) (timestamped : Bool) :
    (save_image folder nm timestamped ld true).writes =
      (folder ++ "/" ++ nm ++ "_latest.png") ::
        (if timestamped then [folder ++ "/" ++ nm ++ "_" ++ pyStr ld ++ ".png"]
         else []) ∧
    (∀ d : DateTimeVal, d.year < 10000 → d.month < 100 → d.day < 100 →
      d.hour < 100 → d.minute < 100 → d.second < 100 →
      isDateTimeFormat (strftimeDF d) = true) := by
  constructor
  · cases timestamped <;> rfl
  · intro d h1 h2 h3 h4 h5 h6
    exact strftimeDF_format d h1 h2 h3 h4 h5 h6

/-- C7 amended witness: a concrete timestamped save after a detection writes
the latest file and a format-conforming timestamped file. -/
theorem save_image_writes_latest_and_timestamped_witness :
    (save_image "/tmp/plates" "platerecognizer_front" true
        (some "2026-10-12_09-05-03") true).writes =
      ["/tmp/plates/platerecognizer_front_latest.png",
       "/tmp/plates/platerecognizer_front_2026-10-12_09-05-03.png"] ∧
    isDateTimeFormat (strftimeDF sampleNow) = true := by
  have h := save_image_writes_latest_and_timestamped "/tmp/plates"
    "platerecognizer_front" (some "2026-10-12_09-05-03") true
  exact ⟨by simpa using h.1,
    h.2 sampleNow (by decide) (by decide) (by decide) (by decide) (by decide) (by decide)⟩

/-- C8 amended: construction stores the given name when it is a non-empty
string and otherwise defaults to `platerecognizer_` joined to the camera's
object id; state starts as `None`; results and statistics start empty and
last_detection unset, while the vehicles list starts as `[{}]` (a one-element
list holding an empty record, not an empty list); statistics are fetched once
through `get_statistics`, and a failed fetch is non-fatal, leaving the empty
snapshot. -/
theorem init_defaults_and_initial_state (api_token : String)
    (folder : Option String) (ts always : Bool) (camera_entity : String)
    (nm : Option String) (eid : String) (so : StatsOutcome) :
    (nm = none →
      (PlateRecognizerEntity.init api_token folder ts always camera_entity nm eid so).name =
        "platerecognizer_" ++ (split_entity_id camera_entity).getD 1 "") ∧
    (∀ s, nm = some s → s ≠ "" →
      (PlateRecognizerEntity.init api_token folder ts always camera_entity nm eid so).name = s) ∧
    (PlateRecognizerEntity.init api_token folder ts always camera_entity nm eid so).results = [] ∧
    (PlateRecognizerEntity.init api_token folder ts always camera_entity nm eid so).vehicles = [[]] ∧
    (PlateRecognizerEntity.init api_token folder ts always camera_entity nm eid so).state = none ∧
    (PlateRecognizerEntity.init api_token folder ts always camera_entity nm eid so).last_detection = none ∧
    (PlateRecognizerEntity.init api_token folder ts always camera_entity nm eid so).statistics =
      get_statistics so none ∧
    (so = StatsOutcome.fail →
      (PlateRecognizerEntity.init api_token folder ts always camera_entity nm eid so).statistics = none) := by
  refine ⟨?_, ?_, rfl, rfl, rfl, rfl, rfl, ?_⟩
  · intro h
    subst h
    rfl
  · intro s h hne
    subst h
    simp [PlateRecognizerEntity.init, pyTruthyStr, hne]
  · intro h
    subst h
    rfl

/-- C8 amended witness: a concrete construction with no given name and a failed
statistics fetch yields the default name and an empty statistics snapshot. -/
theorem init_defaults_and_initial_state_witness :
    (PlateRecognizerEntity.init "tok" (some "/tmp/plates") true false
        "camera.front_door" none "image_processing.platerecognizer_front_door"
        StatsOutcome.fail).name = "platerecognizer_front_door" ∧
    (PlateRecognizerEntity.init "tok" (some "/tmp/plates") true false
        "camera.front_door" none "image_processing.platerecognizer_front_door"
        StatsOutcome.fail).statistics = none := by
  have h := init_defaults_and_initial_state "tok" (some "/tmp/plates") true false
    "camera.front_door" none "image_processing.platerecognizer_front_door"
    StatsOutcome.fail
  refine ⟨?_, h.2.2.2.2.2.2.2 rfl⟩
  rw [h.1 rfl]
  decide

/-- C10: when a zero-detection run saves because of the always-save flag, the
timestamped file name is built from the entity's current (stale or never-set)
last_detection, printed through Python `str`, so a never-detected entity writes
`<name>_None.png`; runs with equal last_detection values therefore overwrite
the same file. -/
theorem timestamped_save_uses_current_last_detection (e : PlateRecognizerEntity)
    (inp : ProcessInput) (folder : String)
    (hf : e.save_file_folder = some folder) (hts : e.save_timestamped_file = true)
    (has : e.always_save_latest_jpg = true) (hpost : inp.post = PostResult.ok [])
    (hdec : inp.decodeOk = true) :
    (e.process_image inp).saveEffect =
      some (save_image folder e.name true e.last_detection true) ∧
    (save_image folder e.name true e.last_detection true).writes =
      [folder ++ "/" ++ e.name ++ "_latest.png",
       folder ++ "/" ++ e.name ++ "_" ++ pyStr e.last_detection ++ ".png"] ∧
    pyStr (none : Option String) = "None" := by
  refine ⟨?_, rfl, rfl⟩
  simp [PlateRecognizerEntity.process_image, hpost, hf, hts, has, hdec,
    vehiclesOfResults]

/-- C10 witness: a never-detected entity with always-save and timestamped-save
set, processing a zero-result response, writes `<name>_None.png`. -/
theorem timestamped_save_uses_current_last_detection_witness :
    (freshEntity.process_image sampleEmptyInput).saveEffect =
      some (save_image "/tmp/plates" "platerecognizer_front" true none true) ∧
    (save_image "/tmp/plates" "platerecognizer_front" true none true).writes =
      ["/tmp/plates/platerecognizer_front_latest.png",
       "/tmp/plates/platerecognizer_front_None.png"] :=
  ⟨(timestamped_save_uses_current_last_detection freshEntity sampleEmptyInput
      "/tmp/plates" rfl rfl rfl rfl rfl).1,
   by decide⟩
